import Mathlib

/-!
Verification development for the slimductor session registry
(`registry.py`).  The registry keeps one JSON record file per active
session in a shared directory; sessions register on start, deregister on
stop, and enumeration lazily evicts records whose tracked process is dead
or whose age exceeds a staleness threshold.

The shallow embedding below models:
  * the POSIX liveness check `is_alive` (signal-0 outcome oracle);
  * the Windows ancestry walk `get_tracking_pid` (process-tree snapshot
    as pure parent/name maps);
  * the session-key derivation and the `register` / `deregister` /
    `active_sessions` operations over an explicit directory listing, a
    `List (String × FileData)` of file names and parsed contents;
  * the `__main__` command dispatch with its top-level exception guard,
    in an `Except` monad whose error carries the state and output at the
    point of the raise.

Time is modelled in integer seconds; `time.strptime`/`time.mktime` is an
oracle `parseTime : String → Option Int` (`none` models a parse failure,
which in the source raises and is caught by the per-record handler).
-/

namespace Slimductor

/-- Outcome of sending the no-op signal 0 to a process id on a POSIX
system: accepted, rejected with permission denied (EPERM, process
exists), rejected with no-such-process (ESRCH), or some other error. -/
inductive KillOutcome where
  | accept
  | eperm
  | esrch
  | otherErr
deriving DecidableEq

/-- Staleness threshold in hours (`STALE_HOURS = 4` in registry.py). -/
def STALE_HOURS : Int := 4

/-- POSIX branch of `is_alive` in registry.py: ids ≤ 0 are never alive;
otherwise `os.kill(pid, 0)` is attempted and any exception — including
`PermissionError` — is caught and yields `False`. -/
def is_alive (kill : Int → KillOutcome) (pid : Int) : Bool :=
  if pid ≤ 0 then false
  else
    match kill pid with
    | .accept => true
    | _ => false

/-- Windows branch of `is_alive`: attempt to open a query-only handle;
a non-null handle means alive.  `openProc pid` is the success of
`OpenProcess(PROCESS_QUERY_INFORMATION, False, pid)`. -/
def is_alive_win (openProc : Int → Bool) (pid : Int) : Bool :=
  if pid ≤ 0 then false else openProc pid

/-- `_CLAUDE_EXES` from registry.py: executable names of the host
application itself. -/
def CLAUDE_EXES : List String := ["claude.exe", "claude"]

/-- `_SKIP_EXES` from registry.py: short-lived wrapper executables the
ancestry walk skips past. -/
def SKIP_EXES : List String :=
  ["py.exe", "python.exe", "python3", "python", "bash.exe", "bash", "sh.exe", "sh"]

/-- Non-Windows branch of `get_tracking_pid` in registry.py:
`os.getppid()` if it is > 1, else `os.getpid()`.  This is also the
fallback applied when the Windows ancestry walk raises. -/
def get_tracking_pid (pid ppid : Int) : Int :=
  if ppid > 1 then ppid else pid

/-- Inputs of the Windows branch of `get_tracking_pid`: the current and
parent process ids, the process-tree snapshot (`none` models
`_win_process_snapshot` raising), and the `OpenProcess` oracle.  The
snapshot maps already carry the dictionary defaults of the source:
`pid_map.get(p, 0)` and `name_map.get(p, "")`. -/
structure WinEnv where
  pid : Int
  ppid : Int
  snapshot : Option ((Int → Int) × (Int → String))
  openProc : Int → Bool

/-- The `for _ in range(15)` ancestry loop of `get_tracking_pid` in
registry.py, as structural recursion on the remaining hop budget.
Arguments: parent map, name map, `OpenProcess` oracle, remaining hops,
current `pid` loop variable, current `last_alive` accumulator. -/
def trackWalk (pmap : Int → Int) (nmap : Int → String) (openProc : Int → Bool) :
    Nat → Int → Int → Int
  | 0, _, last => last
  | n + 1, pid, last =>
    let parent := pmap pid
    if parent ≤ 1 ∨ parent = pid then last
    else if nmap parent ∈ CLAUDE_EXES then parent
    else if is_alive_win openProc parent then
      (if nmap parent ∈ SKIP_EXES then trackWalk pmap nmap openProc n parent parent
       else parent)
    else trackWalk pmap nmap openProc n parent last

/-- Windows branch of `get_tracking_pid` in registry.py: walk the
snapshot starting from the current pid with `last_alive` initialised to
the current pid; if taking the snapshot raises, fall back to the
`os.getppid()` rule. -/
def get_tracking_pid_win (env : WinEnv) : Int :=
  match env.snapshot with
  | some (pmap, nmap) => trackWalk pmap nmap env.openProc 15 env.pid env.pid
  | none => get_tracking_pid env.pid env.ppid

/-- A session record as parsed from a record file.  Every field is
optional because the source reads `pid` and `startedAt` with
`dict.get` defaults and the `check` command indexes `role`, `pid`,
`cwd` directly (raising `KeyError` when absent). -/
structure Record where
  pid : Option Int
  startedAt : Option String
  sessionId : Option String
  cwd : Option String
  role : Option String
deriving DecidableEq

/-- Content of one file in the active-sessions directory: either it
fails to parse as a record object (`json.loads` or the subsequent dict
access raises) or it yields a `Record`. -/
inductive FileData where
  | corrupt
  | record (r : Record)
deriving DecidableEq

/-- The active-sessions directory as a listing of file names and parsed
contents.  The registry state is `Option Listing`; `none` means the
directory does not exist. -/
abbrev Listing := List (String × FileData)

/-- Ambient inputs of one registry invocation: the optional
`CLAUDE_SESSION_ID` environment variable, the current and parent pids,
the formatted UTC timestamp `time.strftime(..., time.gmtime())`, the
working directory, the POSIX signal oracle, the current time in seconds,
and the `time.mktime(time.strptime(...))` oracle. -/
structure Env where
  claudeSessionId : Option String
  pid : Int
  ppid : Int
  nowStr : String
  cwd : String
  kill : Int → KillOutcome
  now : Int
  parseTime : String → Option Int

/-- `session_file` key derivation (without the `.json` extension):
`os.environ.get("CLAUDE_SESSION_ID") or f"pid-{get_tracking_pid()}"` —
an absent or empty variable falls back to the tracking-pid key. -/
def session_key (env : Env) : String :=
  let sid := env.claudeSessionId.getD ""
  if sid = "" then "pid-" ++ toString (get_tracking_pid env.pid env.ppid) else sid

/-- `session_file` in registry.py: the record file name for this
session, `ACTIVE_DIR / (sid ++ ".json")`. -/
def session_file (env : Env) : String := session_key env ++ ".json"

/-- The record value `register` writes: tracking pid, formatted UTC
timestamp, `CLAUDE_SESSION_ID` or the sentinel `"unknown"`, working
directory, and the supplied role. -/
def written (env : Env) (role : String) : Record :=
  { pid := some (get_tracking_pid env.pid env.ppid)
    startedAt := some env.nowStr
    sessionId := some (env.claudeSessionId.getD "unknown")
    cwd := some env.cwd
    role := some role }

/-- `register` in registry.py: ensure the directory exists, and unless a
record file for this session key is already present, append a freshly
written record. -/
def register (env : Env) (role : String) (st : Option Listing) : Option Listing :=
  let files := st.getD []
  if files.any (fun e => e.1 == session_file env) then some files
  else some (files ++ [(session_file env, FileData.record (written env role))])

/-- `deregister` in registry.py: `session_file().unlink(missing_ok=True)`,
deleting the session's record file when present and doing nothing
otherwise (also when the directory itself does not exist). -/
def deregister (env : Env) (st : Option Listing) : Option Listing :=
  match st with
  | none => none
  | some files => some (files.filter (fun e => !(e.1 == session_file env)))

/-- The `ACTIVE_DIR.glob("*.json")` name filter: the file name ends with
`.json` (pathlib glob is a pure fnmatch and also matches dotfiles). -/
def globJson (n : String) : Bool := decide (".json".data <:+ n.data)

/-- Age in seconds of a parsed record, following `active_sessions`:
missing or empty `startedAt` leaves the age at zero; otherwise the
timestamp is parsed (`none` models `time.strptime` raising, which the
per-record handler turns into a silent skip). -/
def recAge? (env : Env) (r : Record) : Option Int :=
  let started := r.startedAt.getD ""
  if started = "" then some 0
  else
    match env.parseTime started with
    | none => none
    | some t => some (env.now - t)

/-- What `active_sessions` does with one parsed file: keep it in the
result, evict (unlink) it, or skip it because a per-record error was
raised. -/
inductive Outcome where
  | keep
  | evict
  | skip
deriving DecidableEq

/-- Per-file decision of `active_sessions`: corrupt files are skipped;
otherwise the record is kept iff its pid (default 0) is alive and its
age in hours is below `STALE_HOURS`, and evicted otherwise.  The hour
comparison `age/3600 < STALE_HOURS` is taken in seconds. -/
def fileResult (env : Env) : FileData → Outcome
  | .corrupt => .skip
  | .record r =>
    match recAge? env r with
    | none => .skip
    | some age =>
      if is_alive env.kill (r.pid.getD 0) && decide (age < STALE_HOURS * 3600) then .keep
      else .evict

/-- The parsed record of a file, if any. -/
def dataRecord? : FileData → Option Record
  | .corrupt => none
  | .record r => some r

/-- Whether `active_sessions` appends this directory entry to its
result: the name matches the glob and the record is kept. -/
def includeEntry (env : Env) (e : String × FileData) : Option Record :=
  if globJson e.1 && decide (fileResult env e.2 = Outcome.keep) then dataRecord? e.2
  else none

/-- Whether this directory entry survives `active_sessions`: everything
except glob-matched entries that are evicted. -/
def keepEntry (env : Env) (e : String × FileData) : Bool :=
  !(globJson e.1 && decide (fileResult env e.2 = Outcome.evict))

/-- `active_sessions` in registry.py: an absent directory yields an
empty result with no side effects; otherwise every `*.json` entry is
parsed, live-and-fresh records are collected in order, stale or dead
ones are unlinked, and per-record errors are silently skipped.  The
returned pair is (collected records, directory listing afterwards). -/
def active_sessions (env : Env) (st : Option Listing) :
    List Record × Option Listing :=
  match st with
  | none => ([], none)
  | some files =>
    (files.filterMap (includeEntry env), some (files.filter (keepEntry env)))

/-- One unit of output of the command surface: the JSON dump printed by
`list`, or a printed text line. -/
inductive Out where
  | json (rs : List Record)
  | line (s : String)
deriving DecidableEq

/-- The per-session line printed by `check`:
`  [{role}] PID {pid}  {cwd}`. -/
def sessionLine (role : String) (pid : Int) (cwd : String) : String :=
  "  [" ++ role ++ "] PID " ++ toString pid ++ "  " ++ cwd

/-- The `for s in sessions` print loop of `check`: one line per session,
aborting with a `KeyError` (second component `false`) as soon as a
session lacks `role`, `pid` or `cwd`; lines printed before the raise are
kept. -/
def checkLines : List Record → List Out × Bool
  | [] => ([], true)
  | r :: rs =>
    match r.role, r.pid, r.cwd with
    | some role, some pid, some cwd =>
      let rest := checkLines rs
      (Out.line (sessionLine role pid cwd) :: rest.1, rest.2)
    | _, _, _ => ([], false)

/-- The summary line printed by `check`:
`{n} active session(s), {m} orchestrator(s)`. -/
def summaryLine (total orch : Nat) : String :=
  toString total ++ " active session(s), " ++ toString orch ++ " orchestrator(s)"

/-- Body of the `__main__` dispatch of registry.py, without the
top-level `try`: select the command from `sys.argv[1]` (defaulting to
`register`), run it, and either return or raise.  Both the value and the
error carry the directory state and the output emitted so far, so the
surrounding handler preserves partial effects. -/
def dispatchE (args : List String) (env : Env) (st : Option Listing) :
    Except (Option Listing × List Out) (Option Listing × List Out) :=
  let cmd := (args.get? 1).getD "register"
  if cmd = "register" then Except.ok (register env "orchestrator" st, [])
  else if cmd = "deregister" then Except.ok (deregister env st, [])
  else if cmd = "list" then
    let p := active_sessions env st
    Except.ok (p.2, [Out.json p.1])
  else if cmd = "check" then
    let p := active_sessions env st
    let orch := p.1.filter (fun s => s.role == some "orchestrator")
    let lines := checkLines p.1
    let allOut := Out.line (summaryLine p.1.length orch.length) :: lines.1
    if lines.2 then Except.ok (p.2, allOut) else Except.error (p.2, allOut)
  else Except.ok (st, [])

/-- The full `__main__` entry of registry.py: the dispatch body wrapped
in `try ... except Exception: pass`.  The third component is the process
exit code, which is 0 whether the body returned or raised. -/
def pyMain (args : List String) (env : Env) (st : Option Listing) :
    Option Listing × List Out × Nat :=
  match dispatchE args env st with
  | .ok (s, o) => (s, o, 0)
  | .error (s, o) => (s, o, 0)

/-- The ancestry walk as the specification sentence reads it: the
`last_alive` accumulator starts out empty, and exhausting the walk
without ever confirming an ancestor alive produces the caller-supplied
fallback `dflt` instead of a pid recorded during the walk. -/
def trackWalkSpec (pmap : Int → Int) (nmap : Int → String) (openProc : Int → Bool)
    (dflt : Int) : Nat → Int → Option Int → Int
  | 0, _, lastAlive => lastAlive.getD dflt
  | n + 1, pid, lastAlive =>
    let parent := pmap pid
    if parent ≤ 1 ∨ parent = pid then lastAlive.getD dflt
    else if nmap parent ∈ CLAUDE_EXES then parent
    else if is_alive_win openProc parent then
      (if nmap parent ∈ SKIP_EXES then trackWalkSpec pmap nmap openProc dflt n parent (some parent)
       else parent)
    else trackWalkSpec pmap nmap openProc dflt n parent lastAlive

/-- The claim's reading of the Windows `get_tracking_pid`: identical
walk, but when it exhausts without any confirmed-alive ancestor the
result is the immediate-parent/current-process rule, not the current
process id. -/
def get_tracking_pid_claim (env : WinEnv) : Int :=
  match env.snapshot with
  | some (pmap, nmap) =>
    trackWalkSpec pmap nmap env.openProc (get_tracking_pid env.pid env.ppid) 15 env.pid none
  | none => get_tracking_pid env.pid env.ppid

/-- The amended reading of the Windows `get_tracking_pid`: when the walk
exhausts without any confirmed-alive ancestor the result is the current
process id. -/
def get_tracking_pid_amended (env : WinEnv) : Int :=
  match env.snapshot with
  | some (pmap, nmap) => trackWalkSpec pmap nmap env.openProc env.pid 15 env.pid none
  | none => get_tracking_pid env.pid env.ppid

/-- A concrete invocation environment used by witnesses: no
`CLAUDE_SESSION_ID`, pid 3 under parent 7, every signal accepted, and a
timestamp oracle mapping every string to time 0. -/
def envA : Env :=
  { claudeSessionId := none
    pid := 3
    ppid := 7
    nowStr := "2024-01-01T00:00:00Z"
    cwd := "/w"
    kill := fun _ => KillOutcome.accept
    now := 0
    parseTime := fun _ => some 0 }

/-- The listing produced by a first registration from `envA` into an
empty directory. -/
def stA : Listing := [(session_file envA, FileData.record (written envA "orchestrator"))]

/-- A concrete Windows environment whose ancestry walk finds no
host-application ancestor and no alive ancestor: pid 100 has dead parent
50, whose own parent entry is 0. -/
def winEnvC : WinEnv :=
  { pid := 100
    ppid := 50
    snapshot := some (fun p => if p = 100 then 50 else 0, fun _ => "cmd.exe")
    openProc := fun _ => false }

/-- A concrete record with a parseable timestamp, used by witnesses. -/
def rK : Record :=
  { pid := some 5, startedAt := some "T", sessionId := none, cwd := none, role := none }

/-- A concrete record with no `startedAt` field, used by witnesses. -/
def rE : Record :=
  { pid := some 5, startedAt := none, sessionId := none, cwd := none, role := none }

/-- Helper: if no entry of the listing carries the given name, the
existence scan of `register` comes out false. -/
lemma any_name_eq_false (files : Listing) (s : String)
    (habs : ∀ e ∈ files, e.1 ≠ s) :
    files.any (fun e => e.1 == s) = false := by
  rw [List.any_eq_false]
  intro e he
  simp only [beq_iff_eq]
  exact habs e he

/-- Helper: a first registration into a listing that does not yet hold
the session's file appends exactly one freshly written record. -/
lemma register_fresh_eq (env : Env) (role : String) (files st1 : Listing)
    (habs : ∀ e ∈ files, e.1 ≠ session_file env)
    (hreg : register env role (some files) = some st1) :
    st1 = files ++ [(session_file env, FileData.record (written env role))] := by
  have hany := any_name_eq_false files (session_file env) habs
  simp only [register, Option.getD_some, hany, Bool.false_eq_true, if_false,
    Option.some.injEq] at hreg
  exact hreg.symm

/-- Helper: any session file name matches the `*.json` glob. -/
lemma globJson_session_file (env : Env) : globJson (session_file env) = true := by
  simp [globJson, session_file, String.data_append, List.suffix_append]

/-- C4 counterexample: a pid greater than 0 whose no-op signal is
rejected with permission denied (so the process exists) is reported not
alive by `is_alive`, contradicting the claim that permission-denied
rejections imply `True`. -/
theorem is_alive_eperm_cex :
    (0 : Int) < 5 ∧ (fun _ => KillOutcome.eperm) (5 : Int) = KillOutcome.eperm ∧
      is_alive (fun _ => KillOutcome.eperm) 5 = false :=
  ⟨by decide, rfl, by decide⟩

/-- C4 (amended): on POSIX-like platforms `is_alive` returns `True`
exactly when the pid is positive and the no-op signal is accepted; every
rejection — no-such-process, permission denied, or any other error — and
every pid ≤ 0 yields `False`. -/
theorem is_alive_eq_accept_check (kill : Int → KillOutcome) (pid : Int) :
    is_alive kill pid = (decide (0 < pid) && decide (kill pid = KillOutcome.accept)) := by
  unfold is_alive
  by_cases hp : pid ≤ 0
  · have h0 : ¬(0 : Int) < pid := by omega
    simp [hp, h0]
  · have h0 : (0 : Int) < pid := by omega
    rcases hk : kill pid <;> simp [hp, h0, hk]

/-- Helper for C5: the source's ancestry loop with its `last_alive`
accumulator agrees with the specification-style walk that tracks the
last confirmed-alive ancestor as an `Option` and falls back to `dflt`
when none was found. -/
lemma trackWalk_eq_spec (pmap : Int → Int) (nmap : Int → String) (op : Int → Bool)
    (dflt : Int) :
    ∀ (n : Nat) (pid : Int) (lastAlive : Option Int),
      trackWalk pmap nmap op n pid (lastAlive.getD dflt) =
        trackWalkSpec pmap nmap op dflt n pid lastAlive := by
  intro n
  induction n with
  | zero => intro pid la; rfl
  | succ n ih =>
    intro pid la
    simp only [trackWalk, trackWalkSpec]
    by_cases h1 : pmap pid ≤ 1 ∨ pmap pid = pid
    · simp [h1]
    · by_cases h2 : nmap (pmap pid) ∈ CLAUDE_EXES
      · simp [h1, h2]
      · by_cases h3 : is_alive_win op (pmap pid) = true
        · by_cases h4 : nmap (pmap pid) ∈ SKIP_EXES
          · simpa [h1, h2, h3, h4] using ih (pmap pid) (some (pmap pid))
          · simp [h1, h2, h3, h4]
        · simpa [h1, h2, h3] using ih (pmap pid) la

/-- C5 counterexample: with pid 100 whose only ancestor 50 is dead and
whose chain then degenerates, the source walk returns the current
process id 100, while the claim's reading (fall back to the
immediate-parent/current-process rule) returns the parent 50. -/
theorem get_tracking_pid_fallback_cex :
    get_tracking_pid_win winEnvC ≠ get_tracking_pid_claim winEnvC ∧
      get_tracking_pid_win winEnvC = 100 ∧ get_tracking_pid_claim winEnvC = 50 :=
  ⟨by decide, by decide, by decide⟩

/-- C5 (amended): the Windows `get_tracking_pid`, as a function of the
process-tree snapshot, equals the claimed walk — at most 15 hops, a
host-application-named ancestor returned immediately, otherwise the
first confirmed-alive non-skip-list ancestor, otherwise the last
confirmed-alive ancestor — with the exhaustion fallback amended to the
current process id, and any snapshot failure swallowed into the
immediate-parent/current-process rule. -/
theorem get_tracking_pid_win_spec (env : WinEnv) :
    get_tracking_pid_win env = get_tracking_pid_amended env := by
  unfold get_tracking_pid_win get_tracking_pid_amended
  cases h : env.snapshot with
  | none => rfl
  | some p =>
    obtain ⟨pmap, nmap⟩ := p
    simpa using trackWalk_eq_spec pmap nmap env.openProc env.pid 15 env.pid none

/-- C7: every invocation of the command surface exits with status 0 —
the top-level handler catches any exception raised by a command body
(such as the `KeyError` of `check` on a record lacking a field) and the
process completes as if it had succeeded. -/
theorem pyMain_exit_zero (args : List String) (env : Env) (st : Option Listing) :
    (pyMain args env st).2.2 = 0 := by
  unfold pyMain
  split <;> rfl

/-- C3 counterexample: invoking the command surface as
`register worker` still writes a record whose role is `"orchestrator"`,
because the dispatch calls `register()` without forwarding any role
argument. -/
theorem cli_role_ignored_cex :
    (pyMain ["registry.py", "register", "worker"] envA (some [])).1 =
        some [(session_file envA, FileData.record (written envA "orchestrator"))] ∧
      (written envA "orchestrator").role = some "orchestrator" ∧
      ("orchestrator" : String) ≠ "worker" :=
  ⟨rfl, rfl, by decide⟩

/-- C3 (amended): the command surface always invokes `register` with the
default role `"orchestrator"`; any role token on the command line is
ignored, so distinct roles cannot be registered through the command
surface. -/
theorem cli_register_ignores_role (args : List String) (env : Env) (st : Option Listing)
    (h : args.get? 1 = some "register") :
    pyMain args env st = (register env "orchestrator" st, [], 0) := by
  have h2 : args[1]? = some "register" := by simpa using h
  simp [pyMain, dispatchE, h2]

/-- Witness for the amended C3 theorem at the concrete command line
`register worker`. -/
theorem cli_register_ignores_role_witness :
    (["registry.py", "register", "worker"].get? 1 = some "register") ∧
      pyMain ["registry.py", "register", "worker"] envA (some []) =
        (register envA "orchestrator" (some []), [], 0) :=
  ⟨rfl, cli_register_ignores_role _ _ _ rfl⟩

/-- C2: `register` is idempotent — once a record file for the session
key exists, a second `register` (with any role, from any invocation
deriving the same key) leaves the registry unchanged, exactly one record
file carries the key, and the record written by the first call,
including its `startedAt` timestamp, is preserved. -/
theorem register_idempotent (env1 env2 : Env) (role1 role2 : String) (files st1 : Listing)
    (hkey : session_file env1 = session_file env2)
    (habs : ∀ e ∈ files, e.1 ≠ session_file env1)
    (hreg : register env1 role1 (some files) = some st1) :
    register env2 role2 (some st1) = some st1 ∧
    st1.countP (fun e => e.1 == session_file env1) = 1 ∧
    (session_file env1, FileData.record (written env1 role1)) ∈ st1 ∧
    (written env1 role1).startedAt = some env1.nowStr := by
  have hst := register_fresh_eq env1 role1 files st1 habs hreg
  have h0 : files.countP (fun e => e.1 == session_file env1) = 0 := by
    rw [List.countP_eq_zero]
    intro e he
    simp only [beq_iff_eq]
    exact habs e he
  refine ⟨?_, ?_, ?_, rfl⟩
  · have hany2 : st1.any (fun e => e.1 == session_file env2) = true := by
      rw [hst, List.any_eq_true]
      exact ⟨(session_file env1, FileData.record (written env1 role1)),
        List.mem_append_right _ (by simp), by simp [hkey]⟩
    simp [register, hany2]
  · rw [hst, List.countP_append, h0, List.countP_cons]
    simp
  · rw [hst]
    exact List.mem_append_right _ (by simp)

/-- Witness for C2: a first registration from `envA` into an empty
directory followed by a second registration with a different role. -/
theorem register_idempotent_witness :
    (session_file envA = session_file envA ∧
      register envA "orchestrator" (some []) = some stA) ∧
    (register envA "worker" (some stA) = some stA ∧
      stA.countP (fun e => e.1 == session_file envA) = 1 ∧
      (session_file envA, FileData.record (written envA "orchestrator")) ∈ stA ∧
      (written envA "orchestrator").startedAt = some envA.nowStr) :=
  ⟨⟨rfl, rfl⟩,
    register_idempotent envA envA "orchestrator" "worker" [] stA rfl (by simp) rfl⟩

/-- C6: a record written by `register` whose tracked pid is alive and
whose age is below the staleness threshold at enumeration time is
reproduced by the `list` enumeration with the same `pid`, `cwd`, `role`
and `sessionId` values that `register` wrote. -/
theorem register_list_round_trip (env1 env2 : Env) (role : String) (files st1 : Listing)
    (t : Int)
    (habs : ∀ e ∈ files, e.1 ≠ session_file env1)
    (hreg : register env1 role (some files) = some st1)
    (hns : env1.nowStr ≠ "")
    (hpt : env2.parseTime env1.nowStr = some t)
    (halive : is_alive env2.kill (get_tracking_pid env1.pid env1.ppid) = true)
    (hfresh : env2.now - t < STALE_HOURS * 3600) :
    written env1 role ∈ (active_sessions env2 (some st1)).1 ∧
    (written env1 role).pid = some (get_tracking_pid env1.pid env1.ppid) ∧
    (written env1 role).cwd = some env1.cwd ∧
    (written env1 role).role = some role ∧
    (written env1 role).sessionId = some (env1.claudeSessionId.getD "unknown") := by
  have hst := register_fresh_eq env1 role files st1 habs hreg
  have hage : recAge? env2 (written env1 role) = some (env2.now - t) := by
    simp [recAge?, written, hns, hpt]
  have hkeep : fileResult env2 (FileData.record (written env1 role)) = Outcome.keep := by
    simp only [fileResult, hage]
    have hpid : (written env1 role).pid.getD 0 = get_tracking_pid env1.pid env1.ppid := rfl
    rw [hpid, halive]
    simp [hfresh]
  refine ⟨?_, rfl, rfl, rfl, rfl⟩
  refine List.mem_filterMap.mpr
    ⟨(session_file env1, FileData.record (written env1 role)), ?_, ?_⟩
  · rw [hst]
    exact List.mem_append_right _ (by simp)
  · simp [includeEntry, globJson_session_file, hkeep, dataRecord?]

/-- Witness for C6: register from `envA` into an empty directory and
enumerate with `envA` itself, whose oracle parses the written timestamp
to time 0 at current time 0. -/
theorem register_list_round_trip_witness :
    ((∀ e ∈ ([] : Listing), e.1 ≠ session_file envA) ∧
      register envA "orchestrator" (some []) = some stA ∧
      envA.nowStr ≠ "" ∧
      envA.parseTime envA.nowStr = some 0 ∧
      is_alive envA.kill (get_tracking_pid envA.pid envA.ppid) = true ∧
      envA.now - 0 < STALE_HOURS * 3600) ∧
    (written envA "orchestrator" ∈ (active_sessions envA (some stA)).1 ∧
      (written envA "orchestrator").pid = some (get_tracking_pid envA.pid envA.ppid) ∧
      (written envA "orchestrator").cwd = some envA.cwd ∧
      (written envA "orchestrator").role = some "orchestrator" ∧
      (written envA "orchestrator").sessionId = some (envA.claudeSessionId.getD "unknown")) :=
  ⟨⟨by simp, rfl, by decide, rfl, by decide, by decide⟩,
    register_list_round_trip envA envA "orchestrator" [] stA 0
      (by simp) rfl (by decide) rfl (by decide) (by decide)⟩

/-- C8: a corrupt record file is skipped by `active_sessions` — it never
appears in the result, the enumeration of every other file is unchanged,
and the file itself stays in the directory at its position. -/
theorem corrupt_entry_skipped (env : Env) (pre post : Listing) (n : String) :
    (active_sessions env (some (pre ++ (n, FileData.corrupt) :: post))).1 =
      (active_sessions env (some (pre ++ post))).1 ∧
    (active_sessions env (some (pre ++ (n, FileData.corrupt) :: post))).2 =
      some (pre.filter (keepEntry env) ++ (n, FileData.corrupt) :: post.filter (keepEntry env)) := by
  have hinc : includeEntry env (n, FileData.corrupt) = none := by
    simp [includeEntry, dataRecord?]
  have hkeep : keepEntry env (n, FileData.corrupt) = true := by
    simp [keepEntry, fileResult]
  constructor
  · simp only [active_sessions, List.filterMap_append, List.filterMap_cons, hinc]
  · simp only [active_sessions, List.filter_append, List.filter_cons, hkeep, if_true]

/-- C9: `deregister` removes the session's record file — afterwards no
entry carries the session's file name; deregistering is idempotent (a
second call, and a call when the file or the directory is absent, is a
successful no-op that changes nothing). -/
theorem deregister_correct (env : Env) (st : Option Listing) :
    ((deregister env st).getD []).all (fun e => !(e.1 == session_file env)) = true ∧
    deregister env (deregister env st) = deregister env st ∧
    ((st.getD []).all (fun e => !(e.1 == session_file env)) = true →
      deregister env st = st) := by
  cases st with
  | none => exact ⟨rfl, rfl, fun _ => rfl⟩
  | some files =>
    refine ⟨?_, ?_, ?_⟩
    · rw [List.all_eq_true]
      intro e he
      have he2 : e ∈ files.filter (fun e => !(e.1 == session_file env)) := he
      exact (List.mem_filter.mp he2).2
    · simp [deregister, List.filter_filter]
    · intro hall
      simp only [deregister, Option.getD_some] at *
      rw [List.filter_eq_self.mpr (List.all_eq_true.mp hall)]

/-- Witness for C9 at a concrete registry holding one record for the
session of `envA`. -/
theorem deregister_correct_witness :
    ((deregister envA (some stA)).getD []).all (fun e => !(e.1 == session_file envA)) = true ∧
    deregister envA (deregister envA (some stA)) = deregister envA (some stA) ∧
    (((some stA : Option Listing).getD []).all (fun e => !(e.1 == session_file envA)) = true →
      deregister envA (some stA) = some stA) :=
  deregister_correct envA (some stA)

/-- C1: a record file that parses and whose age is well defined is
included in the `active_sessions` result exactly when its pid is alive
and its age is below the 4-hour staleness threshold; when that
conjunction fails the file is deleted from the directory. -/
theorem active_sessions_live_iff (env : Env) (files : Listing) (n : String) (r : Record)
    (a : Int) (hmem : (n, FileData.record r) ∈ files) (hglob : globJson n = true)
    (hage : recAge? env r = some a) :
    (r ∈ (active_sessions env (some files)).1 ↔
      (is_alive env.kill (r.pid.getD 0) = true ∧ a < STALE_HOURS * 3600)) ∧
    (¬(is_alive env.kill (r.pid.getD 0) = true ∧ a < STALE_HOURS * 3600) →
      (n, FileData.record r) ∉ ((active_sessions env (some files)).2.getD [])) := by
  by_cases hc : is_alive env.kill (r.pid.getD 0) = true ∧ a < STALE_HOURS * 3600
  · have hres : fileResult env (FileData.record r) = Outcome.keep := by
      simp only [fileResult, hage]
      rw [hc.1]
      simp [hc.2]
    constructor
    · refine ⟨fun _ => hc, fun _ => ?_⟩
      exact List.mem_filterMap.mpr
        ⟨(n, FileData.record r), hmem, by simp [includeEntry, hglob, hres, dataRecord?]⟩
    · intro hnc
      exact absurd hc hnc
  · have hb : (is_alive env.kill (r.pid.getD 0) && decide (a < STALE_HOURS * 3600)) = false := by
      rcases Bool.eq_false_or_eq_true (is_alive env.kill (r.pid.getD 0)) with h | h
      · have : ¬a < STALE_HOURS * 3600 := fun hlt => hc ⟨h, hlt⟩
        simp [h, this]
      · simp [h]
    have hres : fileResult env (FileData.record r) = Outcome.evict := by
      simp only [fileResult, hage, hb]
      rfl
    constructor
    · refine ⟨fun hr => ?_, fun hcc => absurd hcc hc⟩
      exfalso
      obtain ⟨e, he, hinc⟩ := List.mem_filterMap.mp hr
      simp only [includeEntry] at hinc
      split at hinc
      · rename_i hcond
        have hk : fileResult env e.2 = Outcome.keep :=
          of_decide_eq_true (Bool.and_eq_true_iff.mp hcond).2
        have he2 : e.2 = FileData.record r := by
          cases h2 : e.2 with
          | corrupt => rw [h2] at hinc; cases hinc
          | record r2 =>
            rw [h2] at hinc
            simp only [dataRecord?, Option.some.injEq] at hinc
            rw [hinc]
        rw [he2, hres] at hk
        cases hk
      · cases hinc
    · intro _ hmem2
      have hmem3 : (n, FileData.record r) ∈ files.filter (keepEntry env) := hmem2
      have hp := (List.mem_filter.mp hmem3).2
      simp only [keepEntry, hglob, hres, Bool.true_and] at hp
      simp at hp

/-- Witness for C1 at a one-file directory whose record has an alive pid
and age 0. -/
theorem active_sessions_live_iff_witness :
    ((("a.json", FileData.record rK) ∈ [("a.json", FileData.record rK)] ∧
        globJson "a.json" = true ∧ recAge? envA rK = some 0) ∧
      (rK ∈ (active_sessions envA (some [("a.json", FileData.record rK)])).1 ↔
        (is_alive envA.kill (rK.pid.getD 0) = true ∧ 0 < STALE_HOURS * 3600))) ∧
    (¬(is_alive envA.kill (rK.pid.getD 0) = true ∧ 0 < STALE_HOURS * 3600) →
      ("a.json", FileData.record rK) ∉
        ((active_sessions envA (some [("a.json", FileData.record rK)])).2.getD [])) :=
  have h := active_sessions_live_iff envA [("a.json", FileData.record rK)] "a.json" rK 0
    (by decide) (by decide) (by decide)
  ⟨⟨⟨by decide, by decide, by decide⟩, h.1⟩, h.2⟩

/-- C10: a parsed record whose `startedAt` field is missing or empty has
age zero in `active_sessions`, so it can never be evicted for staleness
and is included in the result whenever its pid is alive. -/
theorem zero_age_included (env : Env) (files : Listing) (n : String) (r : Record)
    (hmem : (n, FileData.record r) ∈ files)
    (hglob : globJson n = true)
    (hsa : r.startedAt = none ∨ r.startedAt = some "") :
    recAge? env r = some 0 ∧
    (is_alive env.kill (r.pid.getD 0) = true → r ∈ (active_sessions env (some files)).1) := by
  have hage : recAge? env r = some 0 := by
    rcases hsa with h | h <;> simp [recAge?, h]
  refine ⟨hage, fun halive => ?_⟩
  have hkeep : fileResult env (FileData.record r) = Outcome.keep := by
    simp only [fileResult, hage]
    rw [halive]
    norm_num [STALE_HOURS]
  exact List.mem_filterMap.mpr
    ⟨(n, FileData.record r), hmem, by simp [includeEntry, hglob, hkeep, dataRecord?]⟩

/-- Witness for C10 at a one-file directory whose record lacks
`startedAt` and has an alive pid. -/
theorem zero_age_included_witness :
    ((("b.json", FileData.record rE) ∈ [("b.json", FileData.record rE)] ∧
        globJson "b.json" = true ∧
        (rE.startedAt = none ∨ rE.startedAt = some "") ∧
        is_alive envA.kill (rE.pid.getD 0) = true) ∧
      recAge? envA rE = some 0) ∧
    rE ∈ (active_sessions envA (some [("b.json", FileData.record rE)])).1 :=
  have h := zero_age_included envA [("b.json", FileData.record rE)] "b.json" rE
    (by decide) (by decide) (Or.inl rfl)
  ⟨⟨⟨by decide, by decide, Or.inl rfl, by decide⟩, h.1⟩, h.2 (by decide)⟩

end Slimductor
